import Mathlib

/-!
Verification of the Cognito SRP authentication core (`src/cli/auth.py`).

The Python module is shallowly embedded below:
* arbitrary-precision integers become `Nat`/`Int`,
* byte strings become `List Nat` (each entry a byte value),
* text strings stay `String`,
* fallible code returns `Option`/`Except String` (the error string mirrors the
  Python exception message where a claim depends on it),
* the SHA-256 compression primitive (`hashlib.sha256(...).digest()`) is kept
  abstract as a function parameter `H : Bytes → Bytes`; everything built on top
  of it (HMAC, HKDF, the SRP claim) is defined concretely,
* wall-clock instants (`datetime` values in UTC) become `Int` seconds since the
  epoch, passed explicitly where the source calls `datetime.now`.
-/

/-- Byte strings of the source (`bytes` values) are lists of byte values. -/
abbrev Bytes := List Nat

deriving instance DecidableEq for Except

/-- Lookup in an association list of characters. -/
def lookupPair : List (Char × Nat) → Char → Option Nat
  | [], _ => none
  | (a, n) :: rest, c => if c = a then some n else lookupPair rest c

/-- The sixteen hexadecimal digits and their values, both cases. -/
def hexDigitTable : List (Char × Nat) :=
  [('0', 0), ('1', 1), ('2', 2), ('3', 3), ('4', 4), ('5', 5), ('6', 6),
   ('7', 7), ('8', 8), ('9', 9),
   ('a', 10), ('b', 11), ('c', 12), ('d', 13), ('e', 14), ('f', 15),
   ('A', 10), ('B', 11), ('C', 12), ('D', 13), ('E', 14), ('F', 15)]

/-- Value of one hexadecimal digit, case-insensitive, as accepted by
Python's `int(s, 16)` and `bytes.fromhex` for plain hex digits. -/
def hexDigitVal? (c : Char) : Option Nat := lookupPair hexDigitTable c

/-- Whether a character is a hexadecimal digit. -/
def isHexDigit (c : Char) : Bool := (hexDigitVal? c).isSome

/-- Models `int(s, 16)` on plain hexadecimal inputs: fails on the empty
string and on any non-hex-digit character, as the Python call raises
`ValueError` there. -/
def hexToNat? (s : String) : Option Nat :=
  if s.data.isEmpty then none
  else if s.data.all isHexDigit then
    some (s.data.foldl (fun a c => 16 * a + (hexDigitVal? c).getD 0) 0)
  else none

/-- Lowercase hexadecimal digit character for a value below 16. -/
def hexChar (n : Nat) : Char :=
  if n = 0 then '0' else if n = 1 then '1' else if n = 2 then '2'
  else if n = 3 then '3' else if n = 4 then '4' else if n = 5 then '5'
  else if n = 6 then '6' else if n = 7 then '7' else if n = 8 then '8'
  else if n = 9 then '9' else if n = 10 then 'a' else if n = 11 then 'b'
  else if n = 12 then 'c' else if n = 13 then 'd' else if n = 14 then 'e'
  else 'f'

/-- Models `bytes.hex()`: two lowercase hex digits per byte. -/
def bytesToHex (bs : Bytes) : String :=
  ⟨bs.flatMap fun b => [hexChar (b / 16 % 16), hexChar (b % 16)]⟩

/-- Models `format(n, "x")` (`CognitoAuthClient._long_to_hex`): minimal
lowercase hexadecimal rendering, `"0"` for zero. -/
def natToHex (n : Nat) : String := ⟨Nat.toDigits 16 n⟩

/-- Pairs of hex digits to bytes; fails on an odd-length or invalid tail,
as `bytes.fromhex` raises `ValueError` there. -/
def hexPairsToBytes : List Char → Option Bytes
  | [] => some []
  | [_] => none
  | c1 :: c2 :: rest => do
    let h ← hexDigitVal? c1
    let l ← hexDigitVal? c2
    let bs ← hexPairsToBytes rest
    pure ((16 * h + l) :: bs)

/-- Models `bytes.fromhex(s)` on plain hex input. -/
def hexBytes? (s : String) : Option Bytes := hexPairsToBytes s.data

/-- UTF-8 encoding of one character (standard 1- to 4-byte layout). -/
def utf8Char (c : Char) : Bytes :=
  let n := c.toNat
  if n < 0x80 then [n]
  else if n < 0x800 then [0xC0 + n / 64, 0x80 + n % 64]
  else if n < 0x10000 then [0xE0 + n / 4096, 0x80 + n / 64 % 64, 0x80 + n % 64]
  else [0xF0 + n / 262144, 0x80 + n / 4096 % 64, 0x80 + n / 64 % 64, 0x80 + n % 64]

/-- Models `s.encode("utf-8")`. -/
def utf8 (s : String) : Bytes := s.data.flatMap utf8Char

/-- The standard base64 alphabet. -/
def b64Alphabet : List Char :=
  "ABCDEFGHIJKLMNOPQRSTUVWXYZabcdefghijklmnopqrstuvwxyz0123456789+/".data

/-- Character for one 6-bit group. -/
def b64Char (n : Nat) : Char := b64Alphabet.getD n '='

/-- Index of a character in the base64 alphabet. -/
def b64ValAux : List Char → Nat → Char → Option Nat
  | [], _, _ => none
  | a :: rest, i, c => if c = a then some i else b64ValAux rest (i + 1) c

/-- Six-bit value of one base64 alphabet character. -/
def b64Val? (c : Char) : Option Nat := b64ValAux b64Alphabet 0 c

/-- Models `base64.standard_b64encode`: groups of three bytes become four
characters, with `=` padding for a short final group. -/
def b64EncodeAux : Bytes → List Char
  | [] => []
  | [b1] => [b64Char (b1 / 4), b64Char (b1 % 4 * 16), '=', '=']
  | [b1, b2] =>
    [b64Char (b1 / 4), b64Char (b1 % 4 * 16 + b2 / 16), b64Char (b2 % 16 * 4), '=']
  | b1 :: b2 :: b3 :: rest =>
    b64Char (b1 / 4) :: b64Char (b1 % 4 * 16 + b2 / 16) ::
      b64Char (b2 % 16 * 4 + b3 / 64) :: b64Char (b3 % 64) :: b64EncodeAux rest

/-- Base64 encoding of a byte string, as a `String`. -/
def b64Encode (bs : Bytes) : String := ⟨b64EncodeAux bs⟩

/-- Models `base64.standard_b64decode` on well-formed input: the length must
be a multiple of four, `=` padding only at the very end. -/
def b64DecodeAux : List Char → Option Bytes
  | [] => some []
  | c1 :: c2 :: c3 :: c4 :: rest => do
    let v1 ← b64Val? c1
    let v2 ← b64Val? c2
    if c3 = '=' then
      if c4 = '=' ∧ rest = [] then pure [v1 * 4 + v2 / 16] else none
    else
      let v3 ← b64Val? c3
      if c4 = '=' then
        if rest = [] then pure [v1 * 4 + v2 / 16, v2 % 16 * 16 + v3 / 4] else none
      else
        let v4 ← b64Val? c4
        let bs ← b64DecodeAux rest
        pure ((v1 * 4 + v2 / 16) :: (v2 % 16 * 16 + v3 / 4) :: (v3 % 4 * 64 + v4) :: bs)
  | _ => none

/-- Base64 decoding of a string. -/
def b64Decode? (s : String) : Option Bytes := b64DecodeAux s.data

/-- Models `s.split(sep)` for a single-character separator (Python
`str.split` with an explicit separator: `"".split(sep) == [""]`). -/
def splitAux (sep : Char) : List Char → List Char → List String
  | [], cur => [⟨cur.reverse⟩]
  | c :: rest, cur =>
    if c = sep then ⟨cur.reverse⟩ :: splitAux sep rest []
    else splitAux sep rest (c :: cur)

/-- Split a string on a separator character. -/
def splitString (sep : Char) (s : String) : List String := splitAux sep s.data []

/-- Models `CognitoAuthClient._pad_hex`. Fails (Python `ValueError`) when the
even-length branch cannot parse the first two characters, which happens
exactly for the empty string or a leading non-hex character. -/
def padHex (s : String) : Option String :=
  if s.data.length % 2 = 1 then some ("0" ++ s)
  else match hexToNat? ⟨s.data.take 2⟩ with
    | none => none
    | some v => if 128 ≤ v then some ("00" ++ s) else some s

/-- Value of the first byte of the byte string a hex string denotes; an
odd-length string carries an implicit leading zero nibble, so its first
byte is its leading digit's value. -/
def firstByteVal (s : String) : Nat :=
  if s.data.length % 2 = 1 then (hexDigitVal? (s.data.headD '0')).getD 0
  else (hexToNat? ⟨s.data.take 2⟩).getD 0

example : natToHex 255 = "ff" := by decide
example : natToHex 0 = "0" := by decide
example : bytesToHex [1, 171] = "01ab" := by decide
example : hexToNat? "1Ab" = some 427 := by decide
example : hexBytes? "01ab" = some [1, 171] := by decide
example : b64Encode [1] = "AQ==" := by decide
example : b64Decode? "AQ==" = some [1] := by decide
example : b64Decode? "AAEC" = some [0, 1, 2] := by decide
example : b64Encode [0, 1, 2] = "AAEC" := by decide
example : utf8 "a:" = [97, 58] := by decide
example : splitString '_' "ap-southeast-2_5OWr5yHu8" = ["ap-southeast-2", "5OWr5yHu8"] := by decide
example : splitString '_' "a_b_c" = ["a", "b", "c"] := by decide
example : padHex "f00" = some "0f00" := by decide
example : padHex "f000" = some "00f000" := by decide
example : padHex "2" = some "02" := by decide
example : padHex "7f00" = some "7f00" := by decide

/-!
Data model: `AuthTokens`, its storage dictionary, and the storage world.
-/

/-- Models the `AuthTokens` dataclass. `expires_at` is an absolute UTC
instant in whole seconds (`datetime` values compare exactly; the claims
only involve whole-second instants). -/
structure AuthTokens where
  access_token : String
  id_token : String
  refresh_token : String
  expires_at : Option Int
  user_id : String
  email : String
deriving DecidableEq, Repr

/-- Models the dictionary produced by `AuthTokens.to_dict` and consumed by
`AuthTokens.from_dict`; `expires_at` holds the numeric epoch timestamp or
`None`. JSON serialization (`json.dumps`/`json.loads`) round-trips this
payload exactly, so the stored blob is modelled by the dictionary itself. -/
structure TokenDict where
  access_token : String
  id_token : String
  refresh_token : String
  expires_at : Option Int
  user_id : String
  email : String
deriving DecidableEq, Repr

/-- Models `AuthTokens.is_expired` at current instant `now`
(`datetime.now(timezone.utc)`): a missing expiry is expired; otherwise
expired iff `now > expires_at - 300` seconds. -/
def AuthTokens.is_expired (t : AuthTokens) (now : Int) : Bool :=
  match t.expires_at with
  | none => true
  | some e => decide (now > e - 300)

/-- Models `AuthTokens.to_dict`: `expires_at.timestamp()` is the epoch
number of the stored instant. -/
def AuthTokens.to_dict (t : AuthTokens) : TokenDict :=
  { access_token := t.access_token
    id_token := t.id_token
    refresh_token := t.refresh_token
    expires_at := t.expires_at
    user_id := t.user_id
    email := t.email }

/-- Models `AuthTokens.from_dict`. The source guards the conversion with
`if expires_at:`, a Python truthiness test, so both a missing timestamp and
the number `0` skip the `fromtimestamp` conversion and the bundle keeps no
usable expiry (the raw falsy value left in the field behaves exactly like
`None` in every later read: `is_expired` and `to_dict` test truthiness). -/
def AuthTokens.from_dict (d : TokenDict) : AuthTokens :=
  { access_token := d.access_token
    id_token := d.id_token
    refresh_token := d.refresh_token
    expires_at := match d.expires_at with
      | some e => if e = 0 then none else some e
      | none => none
    user_id := d.user_id
    email := d.email }

/-- State of the two storage backends plus their failure modes, as seen by
one `TokenStorage` instance:
* `keyringAvailable` models `self._keyring` being non-`None`,
* `keyringSetFails` / `keyringGetFails` model `set_password` /
  `get_password` raising,
* `fileWriteFails` models `open(..., "w")`/`chmod` raising,
* `keyringData` / `fileData` hold the serialized bundle each backend
  currently stores, `fileMode` the file's permission bits. -/
structure World where
  keyringAvailable : Bool
  keyringSetFails : Bool
  keyringGetFails : Bool
  fileWriteFails : Bool
  keyringData : Option TokenDict
  fileData : Option TokenDict
  fileMode : Option Nat
deriving DecidableEq, Repr

/-- Models `TokenStorage.store_tokens`: try the keyring, on failure fall
back to the fixed per-user file written with mode `0o600`; an error escapes
only when the file write itself fails. -/
def store_tokens (w : World) (t : AuthTokens) : Except String World :=
  if w.keyringAvailable && !w.keyringSetFails then
    .ok { w with keyringData := some t.to_dict }
  else if w.fileWriteFails then .error "file write failed"
  else .ok { w with fileData := some t.to_dict, fileMode := some 0o600 }

/-- Models `TokenStorage.get_tokens`: read the keyring when present (a
raising `get_password` is caught and treated as no data), fall back to the
file, and parse; no data in either backend gives `none`. -/
def get_tokens (w : World) : Option AuthTokens :=
  let data : Option TokenDict :=
    if w.keyringAvailable && !w.keyringGetFails then w.keyringData else none
  let data : Option TokenDict :=
    match data with
    | some d => some d
    | none => w.fileData
  match data with
  | none => none
  | some d => some (AuthTokens.from_dict d)

/-!
SRP computation (`CognitoAuthClient` helper methods). SHA-256 itself stays
abstract as `H : Bytes → Bytes`; HMAC, HKDF and the claim are concrete.
-/

/-- The 3072-bit SRP group prime, hex-encoded (`CognitoAuthClient._N_HEX`). -/
def N_HEX : String :=
  "FFFFFFFFFFFFFFFFC90FDAA22168C234C4C6628B80DC1CD1" ++
  "29024E088A67CC74020BBEA63B139B22514A08798E3404DD" ++
  "EF9519B3CD3A431B302B0A6DF25F14374FE1356D6D51C245" ++
  "E485B576625E7EC6F44C42E9A637ED6B0BFF5CB6F406B7ED" ++
  "EE386BFB5A899FA5AE9F24117C4B1FE649286651ECE45B3D" ++
  "C2007CB8A163BF0598DA48361C55D39A69163FA8FD24CF5F" ++
  "83655D23DCA3AD961C62F356208552BB9ED529077096966D" ++
  "670C354E4ABC9804F1746C08CA18217C32905E462E36CE3B" ++
  "E39E772C180E86039B2783A2EC07A28FB5C55DF06F4C52C9" ++
  "DE2BCBF6955817183995497CEA956AE515D2261898FA0510" ++
  "15728E5A8AAAC42DAD33170D04507A33A85521ABDF1CBA64" ++
  "ECFB850458DBEF0A8AEA71575D060C7DB3970F85A6E1E4C7" ++
  "ABF5AE8CDB0933D71E8C94E04A25619DCEE3D2261AD2EE6B" ++
  "F12FFA06D98A0864D87602733EC86A64521F2B18177B200C" ++
  "BBE117577A615D6C770988C0BAD946E208E24FA074E5AB31" ++
  "43DB5BFCE0FD108E4B82D120A93AD2CAFFFFFFFFFFFFFFFF"

/-- The generator, hex-encoded (`CognitoAuthClient._g_hex`). -/
def g_hex : String := "2"

/-- Models `n = int(self._N_HEX, 16)`; the parse of the constant cannot
fail (`n_hex_parses` below). -/
def n_const : Nat := (hexToNat? N_HEX).getD 0

/-- Models `g = int(self._g_hex, 16)`. -/
def g_const : Nat := (hexToNat? g_hex).getD 0

/-- Models `bytes.fromhex(self._pad_hex(self._N_HEX))`; cannot fail
(`nBytes_ok` below). -/
def nBytesC : Bytes := ((padHex N_HEX).bind hexBytes?).getD []

/-- Models `bytes.fromhex(self._pad_hex(self._g_hex))`. -/
def gBytesC : Bytes := ((padHex g_hex).bind hexBytes?).getD []

set_option maxRecDepth 100000

theorem n_hex_parses : hexToNat? N_HEX = some n_const := rfl

theorem g_hex_parses : hexToNat? g_hex = some g_const := rfl

theorem g_const_eq : g_const = 2 := rfl

theorem nBytes_ok : (padHex N_HEX).bind hexBytes? = some nBytesC := rfl

theorem gBytes_ok : (padHex g_hex).bind hexBytes? = some gBytesC := rfl

/-- Models `hmac.new(key, msg, hashlib.sha256).digest()`: the RFC 2104
construction over an abstract compression function `H` with the SHA-256
block size of 64 bytes. -/
def hmacH (H : Bytes → Bytes) (key msg : Bytes) : Bytes :=
  let k0 := if 64 < key.length then H key else key
  let kp := k0 ++ List.replicate (64 - k0.length) 0
  H ((kp.map fun b => Nat.xor b 0x5c) ++ H ((kp.map fun b => Nat.xor b 0x36) ++ msg))

/-- Models `CognitoAuthClient._compute_hkdf`: `prk = HMAC(u_bytes, S_bytes)`
then the first 16 bytes of `HMAC(prk, info_bits || 0x01)`, with
`info_bits = b"Caldera Derived Key"`. -/
def compute_hkdf (H : Bytes → Bytes) (s_bytes u_bytes : Bytes) : Bytes :=
  let prk := hmacH H u_bytes s_bytes
  let info_bits_update := utf8 "Caldera Derived Key" ++ [1]
  (hmacH H prk info_bits_update).take 16

/-- Models `CognitoAuthClient._compute_u`:
`int(H(fromhex(pad(hex(A))) + fromhex(pad(hex(B)))).hex(), 16)`. -/
def compute_u (H : Bytes → Bytes) (large_a large_b : Nat) : Option Nat := do
  let aP ← padHex (natToHex large_a)
  let aB ← hexBytes? aP
  let bP ← padHex (natToHex large_b)
  let bB ← hexBytes? bP
  hexToNat? (bytesToHex (H (aB ++ bB)))

/-- Lift an `Option` into `Except String`, tagging the failure with the
message of the Python exception the `none` case models. -/
def ofOpt (msg : String) : Option α → Except String α
  | some a => .ok a
  | none => .error msg

/-- Models `CognitoAuthClient._compute_claim` line by line. `poolId` is
`self.user_pool_id`. Python `pow(b, e, n)` becomes `b ^ e % n`, and the
possibly negative `(large_b - k * g_mod) % n` is taken in `Int` where `%`
is the nonnegative Euclidean remainder, as in Python. The `u == 0` branch
raises `Exception("Invalid SRP u value")`; every other failure is a
`ValueError`/`IndexError`/`binascii.Error`, kept distinct here by message. -/
def compute_claim (H : Bytes → Bytes) (poolId : String) (small_a large_a : Nat)
    (username password salt srp_b secret_block timestamp : String) :
    Except String String := do
  let n := n_const
  let g := g_const
  let large_b ← ofOpt "invalid hex" (hexToNat? srp_b)
  let u ← ofOpt "invalid hex" (compute_u H large_a large_b)
  if u = 0 then throw "Invalid SRP u value"
  let pool_name ← ofOpt "invalid pool id" ((splitString '_' poolId).get? 1)
  let user_pass_hash := H (utf8 (pool_name ++ username ++ ":" ++ password))
  let saltP ← ofOpt "invalid hex" (padHex salt)
  let saltBytes ← ofOpt "invalid hex" (hexBytes? saltP)
  let x_hash := H (saltBytes ++ user_pass_hash)
  let x ← ofOpt "invalid hex" (hexToNat? (bytesToHex x_hash))
  let k ← ofOpt "invalid hex" (hexToNat? (bytesToHex (H (nBytesC ++ gBytesC))))
  let g_mod := g ^ x % n
  let int_val := (((large_b : Int) - (k : Int) * (g_mod : Int)) % (n : Int)).toNat
  let s := int_val ^ (small_a + u * x) % n
  let sB ← ofOpt "invalid hex" ((padHex (natToHex s)).bind hexBytes?)
  let uB ← ofOpt "invalid hex" ((padHex (natToHex u)).bind hexBytes?)
  let hkdf_key := compute_hkdf H sB uB
  let sbBytes ← ofOpt "invalid base64" (b64Decode? secret_block)
  let msg := utf8 pool_name ++ utf8 username ++ sbBytes ++ utf8 timestamp
  let signature := hmacH H hkdf_key msg
  pure (b64Encode signature)

/-!
AuthSession (`CognitoAuthClient.login` / `refresh` / `get_current_tokens`).
The identity provider is external: each network call's response (or raised
client exception) is an explicit input. The JWT subject extraction
`_extract_user_id` (base64url + JSON, returning `""` on any failure) stays
abstract as a parameter `extract : String → String`.
-/

/-- Provider-reported client exceptions caught by `login`'s except clauses. -/
inductive ProviderErr where
  | notAuthorized (m : String)
  | userNotFound (m : String)
  | userNotConfirmed (m : String)
  | other (m : String)
deriving DecidableEq, Repr

/-- Message of the `AuthenticationError` each provider exception becomes. -/
def classifyErr : ProviderErr → String
  | .notAuthorized _ => "Invalid username or password"
  | .userNotFound _ => "User not found"
  | .userNotConfirmed _ => "User account not confirmed"
  | .other m => "Authentication failed: " ++ m

/-- Models the `initiate_auth(USER_SRP_AUTH)` response: the challenge name
and the challenge parameters the code reads (a missing key raises
`KeyError`, hence `Option`). -/
structure InitResp where
  challengeName : Option String
  userIdForSrp : Option String
  salt : Option String
  srpB : Option String
  secretBlock : Option String
deriving DecidableEq, Repr

/-- Models the `AuthenticationResult` payload of a provider response.
`refreshToken` is optional because the refresh response carries none. -/
structure AuthResultData where
  accessToken : String
  idToken : String
  refreshToken : Option String
  expiresIn : Int
deriving DecidableEq, Repr

/-- Models the `respond_to_auth_challenge` response. `userIdForSrp` models
`ChallengeParameters.get("USER_ID_FOR_SRP", ...)`. -/
structure RespondResp where
  challengeName : Option String
  session : Option String
  userIdForSrp : Option String
  authenticationResult : Option AuthResultData
deriving DecidableEq, Repr

/-- Models the `initiate_auth(REFRESH_TOKEN_AUTH)` response. -/
structure RefreshResp where
  authenticationResult : Option AuthResultData
deriving DecidableEq, Repr

/-- Outcome of `login`: a credential bundle plus the updated storage, the
`PasswordChangeRequired` exception's payload, or an `AuthenticationError`
message. -/
inductive LoginOutcome where
  | success (tokens : AuthTokens) (w : World)
  | passwordChangeRequired (session : String) (user_id : String)
  | authError (msg : String)
deriving DecidableEq, Repr

/-- Models `CognitoAuthClient.login`. `initResult` / `respondResult` are the
two network round trips (`.error` models a raised client exception);
`small_a` / `large_a` are the SRP ephemerals `_generate_random_key_pair`
returned; `now` is the instant the tokens' `ExpiresIn` is added to, and
`timestamp` the formatted challenge timestamp string. A raised
`AuthenticationError` / `PasswordChangeRequired` passes through its except
clauses unchanged; any other exception `e` (including the `u == 0` failure
inside `_compute_claim` and a storage failure) becomes
`AuthenticationError("Authentication failed: " + e)`. -/
def login (H : Bytes → Bytes) (extract : String → String) (poolId : String)
    (initResult : Except ProviderErr InitResp)
    (respondResult : Except ProviderErr RespondResp)
    (now : Int) (timestamp : String) (small_a large_a : Nat) (w : World)
    (username password : String) : LoginOutcome :=
  match initResult with
  | .error e => .authError (classifyErr e)
  | .ok resp =>
    if resp.challengeName ≠ some "PASSWORD_VERIFIER" then
      .authError "Unexpected challenge"
    else
      match resp.userIdForSrp, resp.salt, resp.srpB, resp.secretBlock with
      | some user_id, some salt, some srp_b, some secret_block =>
        match compute_claim H poolId small_a large_a user_id password salt srp_b
            secret_block timestamp with
        | .error e => .authError ("Authentication failed: " ++ e)
        | .ok _claim =>
          match respondResult with
          | .error e => .authError (classifyErr e)
          | .ok ar =>
            if ar.challengeName = some "NEW_PASSWORD_REQUIRED" then
              match ar.session with
              | some sess => .passwordChangeRequired sess (ar.userIdForSrp.getD username)
              | none => .authError "Authentication failed: missing Session"
            else
              match ar.authenticationResult with
              | none => .authError "Authentication failed"
              | some result =>
                match result.refreshToken with
                | none => .authError "Authentication failed: missing RefreshToken"
                | some rt =>
                  let tokens : AuthTokens :=
                    { access_token := result.accessToken
                      id_token := result.idToken
                      refresh_token := rt
                      expires_at := some (now + result.expiresIn)
                      user_id := extract result.idToken
                      email := username }
                  match store_tokens w tokens with
                  | .ok w2 => .success tokens w2
                  | .error e => .authError ("Authentication failed: " ++ e)
      | _, _, _, _ => .authError "Authentication failed: missing challenge parameter"

/-- Models `CognitoAuthClient.refresh`: exchanges the refresh token, keeps
it unrotated in the new bundle, reads user id and email from the stored
bundle (empty user id falls back to `_extract_user_id` via Python `or`),
stores the new bundle, and returns it with the updated storage. -/
def refresh (net : Except String RefreshResp) (extract : String → String)
    (now : Int) (w : World) (refresh_token : String) :
    Except String (AuthTokens × World) :=
  match net with
  | .error e => .error ("Token refresh failed: " ++ e)
  | .ok resp =>
    match resp.authenticationResult with
    | none => .error "Token refresh failed"
    | some result =>
      let stored := get_tokens w
      let user_id := match stored with | some s => s.user_id | none => ""
      let email := match stored with | some s => s.email | none => ""
      let expires_at := now + result.expiresIn
      let tokens : AuthTokens :=
        { access_token := result.accessToken
          id_token := result.idToken
          refresh_token := refresh_token
          expires_at := some expires_at
          user_id := if user_id = "" then extract result.idToken else user_id
          email := email }
      match store_tokens w tokens with
      | .ok w2 => .ok (tokens, w2)
      | .error e => .error ("Token refresh failed: " ++ e)

/-- Models `CognitoAuthClient.get_current_tokens`: no stored bundle gives
`none`; an expired bundle is refreshed, and a refresh failure of any kind
is caught and gives `none` (the function is total: nothing propagates). -/
def get_current_tokens (net : Except String RefreshResp)
    (extract : String → String) (now : Int) (w : World) : Option AuthTokens :=
  match get_tokens w with
  | none => none
  | some tokens =>
    if tokens.is_expired now then
      match refresh net extract now w tokens.refresh_token with
      | .ok p => some p.1
      | .error _ => none
    else some tokens

/-!
Helper lemmas and sample values shared by the claim theorems.
-/

/-- Looking up in a value-bounded table returns a bounded value. -/
theorem lookupPair_le {v : Nat} :
    ∀ (l : List (Char × Nat)) (c : Char), (∀ p ∈ l, p.2 ≤ 15) →
      lookupPair l c = some v → v ≤ 15
  | [], _, _, h => by simp [lookupPair] at h
  | (a, n) :: rest, c, hall, h => by
    rw [lookupPair] at h
    by_cases hc : c = a
    · rw [if_pos hc] at h
      injection h with h2
      subst h2
      exact hall (a, n) (by simp)
    · rw [if_neg hc] at h
      exact lookupPair_le rest c (fun p hp => hall p (List.mem_cons_of_mem _ hp)) h

/-- A hex digit's value is at most 15. -/
theorem hexDigitVal_le {c : Char} {v : Nat} (h : hexDigitVal? c = some v) :
    v ≤ 15 :=
  lookupPair_le hexDigitTable c (by decide) h

/-- Appending strings appends their character lists. -/
theorem string_data_append (a b : String) : (a ++ b).data = a.data ++ b.data := by
  cases a; cases b; rfl

/-- Strings are equal iff their character lists are. -/
theorem string_eq_iff (a b : String) : a = b ↔ a.data = b.data := by
  constructor
  · intro h; rw [h]
  · intro h; cases a; cases b; cases h; rfl

/-- Serializing and parsing a bundle is the identity away from the
epoch-zero expiry, where `from_dict`'s truthiness test drops the value. -/
theorem roundtrip_aux (t : AuthTokens) (h : t.expires_at ≠ some 0) :
    AuthTokens.from_dict t.to_dict = t := by
  cases t with
  | mk a i r e u em =>
    cases e with
    | none => rfl
    | some v =>
      simp only [AuthTokens.to_dict, AuthTokens.from_dict, AuthTokens.mk.injEq,
        true_and, and_true]
      have hv : v ≠ 0 := by intro hv0; exact h (by simp [hv0])
      simp [hv]

/-- A sample bundle with the given expiry, used by concrete witnesses. -/
def mkTokens (e : Option Int) : AuthTokens :=
  { access_token := "acc", id_token := "idt", refresh_token := "ref",
    expires_at := e, user_id := "uid", email := "user@example.com" }

/-- A storage world with nothing stored and no failure modes, file-only. -/
def emptyWorld : World :=
  { keyringAvailable := false, keyringSetFails := false, keyringGetFails := false,
    fileWriteFails := false, keyringData := none, fileData := none, fileMode := none }

/-- The constant identity-extraction stand-in used by concrete witnesses. -/
def exId : String → String := fun _ => ""

/-!
C2 — expiry freshness boundary.
-/

/-- C2 counterexample: the claim says a bundle whose expiry is exactly
`now + 5` minutes is expired (inclusive boundary); at `now = 0` and expiry
`300` seconds, `is_expired` is `false`, because the source compares with a
strict `now > expires - 300`. -/
theorem is_expired_boundary_counterexample :
    (mkTokens (some 300)).expires_at = some (0 + 300) ∧
      ¬((mkTokens (some 300)).is_expired 0 = true) := by decide

/-- C2 (amended): a bundle with an expiry instant is expired exactly when
the current time is strictly within 5 minutes of (or past) the expiry:
`is_expired` is true iff `expiry - now < 300` seconds. Hence expiry =
now + 4 minutes is expired, now + 6 minutes is not, and now + exactly
5 minutes is NOT expired — the boundary is exclusive. -/
theorem is_expired_iff (now e : Int) (t : AuthTokens)
    (h : t.expires_at = some e) :
    (t.is_expired now = true ↔ e - now < 300)
    ∧ (e = now + 240 → t.is_expired now = true)
    ∧ (e = now + 360 → t.is_expired now = false)
    ∧ (e = now + 300 → t.is_expired now = false) := by
  refine ⟨?_, ?_, ?_, ?_⟩ <;>
    simp only [AuthTokens.is_expired, h, decide_eq_true_eq, decide_eq_false_iff_not] <;>
    omega

/-- Witness for `is_expired_iff` at a concrete bundle. -/
theorem is_expired_iff_witness :
    (mkTokens (some 100)).expires_at = some 100 ∧
      (((mkTokens (some 100)).is_expired 0 = true ↔ (100 : Int) - 0 < 300)
        ∧ ((100 : Int) = 0 + 240 → (mkTokens (some 100)).is_expired 0 = true)
        ∧ ((100 : Int) = 0 + 360 → (mkTokens (some 100)).is_expired 0 = false)
        ∧ ((100 : Int) = 0 + 300 → (mkTokens (some 100)).is_expired 0 = false)) :=
  ⟨rfl, is_expired_iff 0 100 (mkTokens (some 100)) rfl⟩

/-!
C10 — a bundle without an expiry instant is never handed out as fresh.
-/

/-- C10: a bundle with no expiry instant is always expired, and
`get_current_tokens` on a stored bundle without expiry always takes the
refresh path: it returns the refreshed bundle on success and nothing on
failure, never the stored bundle itself. -/
theorem missing_expiry_never_fresh :
    (∀ (t : AuthTokens) (now : Int), t.expires_at = none → t.is_expired now = true)
    ∧ ∀ (net : Except String RefreshResp) (extract : String → String) (now : Int)
        (w : World) (t : AuthTokens), get_tokens w = some t → t.expires_at = none →
        get_current_tokens net extract now w =
          match refresh net extract now w t.refresh_token with
          | .ok p => some p.1
          | .error _ => none := by
  constructor
  · intro t now h
    simp [AuthTokens.is_expired, h]
  · intro net extract now w t hw he
    unfold get_current_tokens
    rw [hw]
    simp [AuthTokens.is_expired, he]

/-- Witness for `missing_expiry_never_fresh`: a stored bundle without
expiry, a failing provider, and the resulting `none`. -/
theorem missing_expiry_never_fresh_witness :
    get_tokens { emptyWorld with fileData := some (mkTokens none).to_dict } =
        some (mkTokens none)
    ∧ (mkTokens none).expires_at = none
    ∧ get_current_tokens (.error "timeout") exId 0
        { emptyWorld with fileData := some (mkTokens none).to_dict } =
        match refresh (.error "timeout") exId 0
            { emptyWorld with fileData := some (mkTokens none).to_dict }
            (mkTokens none).refresh_token with
        | .ok p => some p.1
        | .error _ => none :=
  ⟨by decide, by decide,
    missing_expiry_never_fresh.2 (.error "timeout") exId 0
      { emptyWorld with fileData := some (mkTokens none).to_dict }
      (mkTokens none) (by decide) (by decide)⟩

/-!
C7 — storage round trip.
-/

/-- C7 counterexample: a bundle whose expiry is exactly the epoch origin
(numeric timestamp `0`) does not survive the round trip: `from_dict`'s
truthiness test `if expires_at:` treats `0` like a missing value, so the
reloaded bundle has no expiry and differs from the original. -/
theorem tokens_roundtrip_counterexample :
    AuthTokens.from_dict (mkTokens (some 0)).to_dict ≠ mkTokens (some 0) := by
  decide

/-- C7 (amended): for every credential bundle whose expiry timestamp is not
exactly zero (including bundles with no expiry), serializing for storage
and deserializing back yields a bundle equal to the original in every
field, with the expiry equal to the original absolute instant. -/
theorem tokens_roundtrip (t : AuthTokens) (h : t.expires_at ≠ some 0) :
    AuthTokens.from_dict t.to_dict = t :=
  roundtrip_aux t h

/-- Witness for `tokens_roundtrip` at a concrete bundle. -/
theorem tokens_roundtrip_witness :
    (mkTokens (some 1700000000)).expires_at ≠ some 0 ∧
      AuthTokens.from_dict (mkTokens (some 1700000000)).to_dict =
        mkTokens (some 1700000000) :=
  ⟨by decide, tokens_roundtrip (mkTokens (some 1700000000)) (by decide)⟩

/-!
C6 — `get_current_tokens` is total and refresh failures are absorbed.
-/

/-- C6: with no stored bundle `get_current_tokens` returns nothing; with a
stored expired bundle it attempts `refresh`, returning the refreshed bundle
on success and nothing on any refresh failure. Being a total function into
`Option`, it never propagates an exception. -/
theorem get_current_tokens_total (net : Except String RefreshResp)
    (extract : String → String) (now : Int) (w : World) :
    (get_tokens w = none → get_current_tokens net extract now w = none)
    ∧ ∀ t, get_tokens w = some t → t.is_expired now = true →
        (∀ e, refresh net extract now w t.refresh_token = .error e →
          get_current_tokens net extract now w = none)
        ∧ ∀ p, refresh net extract now w t.refresh_token = .ok p →
          get_current_tokens net extract now w = some p.1 := by
  constructor
  · intro h
    unfold get_current_tokens
    rw [h]
  · intro t ht hexp
    constructor
    · intro e he
      unfold get_current_tokens
      rw [ht]
      simp [hexp, he]
    · intro p hp
      unfold get_current_tokens
      rw [ht]
      simp [hexp, hp]

/-- Witness for `get_current_tokens_total`: nothing stored gives `none`. -/
theorem get_current_tokens_total_witness :
    get_tokens emptyWorld = none ∧
      get_current_tokens (.error "timeout") exId 0 emptyWorld = none :=
  ⟨by decide, (get_current_tokens_total (.error "timeout") exId 0 emptyWorld).1 (by decide)⟩

/-!
C8 — keyring failure falls back to the file backend.
-/

/-- The storage world after a fallback file write of the bundle. -/
def storeFallbackWorld (w : World) (t : AuthTokens) : World :=
  { w with fileData := some t.to_dict, fileMode := some 0o600 }

/-- C8 (amended): if the keyring backend fails on every store call (and, as
the scenario implies, holds no stale entry) while the file backend works,
`store_tokens` writes the serialized bundle to the per-user file with mode
`0o600`, and a subsequent `get_tokens` retrieves that bundle via the file
fallback — equal to the original whenever its expiry timestamp is not
exactly zero; a storage failure surfaces only when the file write fails and
the keyring is unavailable or failing too. -/
theorem store_fallback (w : World) (t : AuthTokens)
    (havail : w.keyringAvailable = true) (hfails : w.keyringSetFails = true)
    (hempty : w.keyringData = none) (hfile : w.fileWriteFails = false)
    (hexp : t.expires_at ≠ some 0) :
    store_tokens w t = .ok (storeFallbackWorld w t)
    ∧ (storeFallbackWorld w t).fileData = some t.to_dict
    ∧ (storeFallbackWorld w t).fileMode = some 0o600
    ∧ get_tokens (storeFallbackWorld w t) = some t
    ∧ ∀ (w2 : World) (t2 : AuthTokens) (e : String), store_tokens w2 t2 = .error e →
        w2.fileWriteFails = true
        ∧ (w2.keyringAvailable = false ∨ w2.keyringSetFails = true) := by
  obtain ⟨ka, ks, kg, fw, kd, fd, fm⟩ := w
  dsimp only at havail hfails hempty hfile
  subst havail hfails hempty hfile
  refine ⟨rfl, rfl, rfl, ?_, ?_⟩
  · unfold get_tokens storeFallbackWorld
    cases kg <;> simp [roundtrip_aux t hexp]
  · intro w2 t2 e he
    unfold store_tokens at he
    by_cases hk : (w2.keyringAvailable && !w2.keyringSetFails) = true
    · rw [if_pos hk] at he
      exact Except.noConfusion he
    · rw [if_neg hk] at he
      by_cases hf : w2.fileWriteFails = true
      · refine ⟨hf, ?_⟩
        cases ha : w2.keyringAvailable
        · exact Or.inl rfl
        · cases hb : w2.keyringSetFails
          · exact absurd (by rw [ha, hb]; rfl) hk
          · exact Or.inr rfl
      · rw [if_neg hf] at he
        exact Except.noConfusion he

/-- A world whose keyring is present but fails every store call and holds
nothing, with a working file backend. -/
def w8 : World :=
  { keyringAvailable := true, keyringSetFails := true, keyringGetFails := false,
    fileWriteFails := false, keyringData := none, fileData := none, fileMode := none }

/-- Witness for `store_fallback` at a concrete world and bundle. -/
theorem store_fallback_witness :
    (w8.keyringAvailable = true ∧ w8.keyringSetFails = true
      ∧ w8.keyringData = none ∧ w8.fileWriteFails = false
      ∧ (mkTokens (some 5)).expires_at ≠ some 0)
    ∧ (store_tokens w8 (mkTokens (some 5)) =
          .ok (storeFallbackWorld w8 (mkTokens (some 5)))
        ∧ (storeFallbackWorld w8 (mkTokens (some 5))).fileData =
            some (mkTokens (some 5)).to_dict
        ∧ (storeFallbackWorld w8 (mkTokens (some 5))).fileMode = some 0o600
        ∧ get_tokens (storeFallbackWorld w8 (mkTokens (some 5))) =
            some (mkTokens (some 5))
        ∧ ∀ (w2 : World) (t2 : AuthTokens) (e : String),
            store_tokens w2 t2 = .error e →
            w2.fileWriteFails = true
            ∧ (w2.keyringAvailable = false ∨ w2.keyringSetFails = true)) :=
  ⟨⟨rfl, rfl, rfl, rfl, by decide⟩,
    store_fallback w8 (mkTokens (some 5)) rfl rfl rfl rfl (by decide)⟩

/-- C8 counterexample: with the keyring failing every store call, a bundle
whose expiry timestamp is exactly `0` is written to the file fallback but a
subsequent `get_tokens` returns a different bundle (its expiry dropped by
`from_dict`'s truthiness test), so "retrieves that same bundle" fails as
universally stated. -/
theorem store_fallback_counterexample :
    store_tokens w8 (mkTokens (some 0)) =
        .ok (storeFallbackWorld w8 (mkTokens (some 0)))
    ∧ get_tokens (storeFallbackWorld w8 (mkTokens (some 0))) = some (mkTokens none)
    ∧ mkTokens none ≠ mkTokens (some 0) := by decide

/-!
C9 — refresh keeps the refresh token and the stored identity.
-/

/-- C9 (amended): a successful `refresh` returns and stores a bundle whose
refresh token is exactly the one passed in (no rotation) and whose email is
the previously stored bundle's; the user id is also preserved whenever the
stored user id is nonempty (an empty stored user id is instead re-derived
from the new identity token); the access token, identity token and expiry
come from the provider response. -/
theorem refresh_preserves_identity (net : Except String RefreshResp)
    (extract : String → String) (now : Int) (w : World) (rt : String)
    (stored t2 : AuthTokens) (w2 : World)
    (hstored : get_tokens w = some stored) (hid : ¬(stored.user_id = ""))
    (hok : refresh net extract now w rt = .ok (t2, w2)) :
    t2.refresh_token = rt ∧ t2.user_id = stored.user_id ∧ t2.email = stored.email
    ∧ store_tokens w t2 = .ok w2
    ∧ ∀ (resp : RefreshResp) (result : AuthResultData), net = .ok resp →
        resp.authenticationResult = some result →
        t2.access_token = result.accessToken ∧ t2.id_token = result.idToken
        ∧ t2.expires_at = some (now + result.expiresIn) := by
  unfold refresh at hok
  cases net with
  | error e => dsimp only at hok; exact Except.noConfusion hok
  | ok resp =>
    dsimp only at hok
    cases hres : resp.authenticationResult with
    | none => simp only [hres] at hok; exact Except.noConfusion hok
    | some result =>
      simp only [hres, hstored, if_neg hid] at hok
      cases hst : store_tokens w
          { access_token := result.accessToken, id_token := result.idToken,
            refresh_token := rt, expires_at := some (now + result.expiresIn),
            user_id := stored.user_id, email := stored.email } with
      | error e2 =>
        rw [hst] at hok
        exact Except.noConfusion hok
      | ok w2' =>
        rw [hst] at hok
        injection hok with h1
        injection h1 with h2 h3
        subst h2
        subst h3
        refine ⟨rfl, rfl, rfl, hst, ?_⟩
        intro resp' result' hnet hres2
        injection hnet with h4
        subst h4
        rw [hres] at hres2
        injection hres2 with h5
        subst h5
        exact ⟨rfl, rfl, rfl⟩

/-- A provider refresh response with fresh access and identity tokens. -/
def c9Result : AuthResultData :=
  { accessToken := "A2", idToken := "I2", refreshToken := none, expiresIn := 3600 }

/-- A successful refresh network outcome. -/
def c9Net : Except String RefreshResp := .ok { authenticationResult := some c9Result }

/-- The world storing `mkTokens (some 5)` in the file backend. -/
def c9World : World := { emptyWorld with fileData := some (mkTokens (some 5)).to_dict }

/-- The bundle `refresh` builds from `c9Result` over `c9World`. -/
def c9Tok : AuthTokens :=
  { access_token := "A2", id_token := "I2", refresh_token := "ref",
    expires_at := some 3600, user_id := "uid", email := "user@example.com" }

/-- Witness for `refresh_preserves_identity` at a concrete refresh. -/
theorem refresh_preserves_identity_witness :
    (get_tokens c9World = some (mkTokens (some 5))
      ∧ ¬((mkTokens (some 5)).user_id = "")
      ∧ refresh c9Net exId 0 c9World "ref" =
          .ok (c9Tok, storeFallbackWorld c9World c9Tok))
    ∧ (c9Tok.refresh_token = "ref" ∧ c9Tok.user_id = (mkTokens (some 5)).user_id
      ∧ c9Tok.email = (mkTokens (some 5)).email
      ∧ store_tokens c9World c9Tok = .ok (storeFallbackWorld c9World c9Tok)
      ∧ ∀ (resp : RefreshResp) (result : AuthResultData), c9Net = .ok resp →
          resp.authenticationResult = some result →
          c9Tok.access_token = result.accessToken ∧ c9Tok.id_token = result.idToken
          ∧ c9Tok.expires_at = some (0 + result.expiresIn)) :=
  ⟨⟨by decide, by decide, by decide⟩,
    refresh_preserves_identity c9Net exId 0 c9World "ref" (mkTokens (some 5)) c9Tok
      (storeFallbackWorld c9World c9Tok) (by decide) (by decide) (by decide)⟩

/-- A stored bundle whose user id is empty (as `login` produces when the
identity-token extraction fails). -/
def c9BadStored : AuthTokens :=
  { access_token := "acc", id_token := "idt", refresh_token := "ref",
    expires_at := some 5, user_id := "", email := "user@example.com" }

/-- The world storing `c9BadStored` in the file backend. -/
def c9BadWorld : World := { emptyWorld with fileData := some c9BadStored.to_dict }

/-- An extraction function returning a nonempty subject id. -/
def exSub : String → String := fun _ => "sub-123"

/-- The bundle the refresh builds over `c9BadWorld`: its user id is the
freshly extracted subject, not the stored (empty) one. -/
def c9BadTok : AuthTokens :=
  { access_token := "A2", id_token := "I2", refresh_token := "ref",
    expires_at := some 3600, user_id := "sub-123", email := "user@example.com" }

/-- C9 counterexample: a successful refresh over a stored bundle whose user
id is empty returns a bundle whose user id is re-extracted from the new
identity token (Python `user_id or self._extract_user_id(...)`), so the
user id is not preserved from the previously stored bundle as universally
claimed. -/
theorem refresh_counterexample :
    get_tokens c9BadWorld = some c9BadStored
    ∧ refresh c9Net exSub 0 c9BadWorld "ref" =
        .ok (c9BadTok, storeFallbackWorld c9BadWorld c9BadTok)
    ∧ ¬(c9BadTok.user_id = c9BadStored.user_id) := by decide

/-!
C5 — a NEW_PASSWORD_REQUIRED challenge after the verifier step.
-/

/-- C5: when the provider's response to the PASSWORD_VERIFIER challenge
itself carries a NEW_PASSWORD_REQUIRED challenge with a session token,
`login` yields the distinguishable password-change-required outcome
carrying that opaque session token and the server's canonical user id —
not a credential bundle and not an authentication failure. -/
theorem login_new_password_required (H : Bytes → Bytes)
    (extract : String → String) (poolId : String) (ir : InitResp)
    (ar : RespondResp) (now : Int) (timestamp : String) (small_a large_a : Nat)
    (w : World) (username password : String)
    (user_id salt srp_b secret_block claim sess srv_uid : String)
    (hchal : ir.challengeName = some "PASSWORD_VERIFIER")
    (huid : ir.userIdForSrp = some user_id) (hsalt : ir.salt = some salt)
    (hsrpb : ir.srpB = some srp_b) (hsec : ir.secretBlock = some secret_block)
    (hclaim : compute_claim H poolId small_a large_a user_id password salt srp_b
        secret_block timestamp = .ok claim)
    (hchal2 : ar.challengeName = some "NEW_PASSWORD_REQUIRED")
    (hsess : ar.session = some sess) (huid2 : ar.userIdForSrp = some srv_uid) :
    login H extract poolId (.ok ir) (.ok ar) now timestamp small_a large_a w
        username password = .passwordChangeRequired sess srv_uid
    ∧ (∀ (t : AuthTokens) (w2 : World),
        login H extract poolId (.ok ir) (.ok ar) now timestamp small_a large_a w
          username password ≠ .success t w2)
    ∧ ∀ (m : String),
        login H extract poolId (.ok ir) (.ok ar) now timestamp small_a large_a w
          username password ≠ .authError m := by
  have hmain : login H extract poolId (.ok ir) (.ok ar) now timestamp small_a
      large_a w username password = .passwordChangeRequired sess srv_uid := by
    unfold login
    simp [hchal, huid, hsalt, hsrpb, hsec, hclaim, hchal2, hsess, huid2]
  refine ⟨hmain, ?_, ?_⟩
  · intro t w2
    rw [hmain]
    exact fun hx => LoginOutcome.noConfusion hx
  · intro m
    rw [hmain]
    exact fun hx => LoginOutcome.noConfusion hx

/-- A stand-in hash returning one fixed byte, used to exercise the SRP
pipeline concretely. -/
def H1 : Bytes → Bytes := fun _ => [1]

/-- A concrete PASSWORD_VERIFIER challenge response. -/
def ir5 : InitResp :=
  { challengeName := some "PASSWORD_VERIFIER", userIdForSrp := some "u",
    salt := some "ab", srpB := some "5", secretBlock := some "AA==" }

/-- A concrete NEW_PASSWORD_REQUIRED second-level challenge. -/
def ar5 : RespondResp :=
  { challengeName := some "NEW_PASSWORD_REQUIRED", session := some "sess-token",
    userIdForSrp := some "srv-uid", authenticationResult := none }

/-- Witness for `login_new_password_required` at a concrete exchange. -/
theorem login_new_password_required_witness :
    (ir5.challengeName = some "PASSWORD_VERIFIER"
      ∧ ir5.userIdForSrp = some "u" ∧ ir5.salt = some "ab"
      ∧ ir5.srpB = some "5" ∧ ir5.secretBlock = some "AA=="
      ∧ compute_claim H1 "a_b" 1 5 "u" "p" "ab" "5" "AA==" "ts" = .ok "AQ=="
      ∧ ar5.challengeName = some "NEW_PASSWORD_REQUIRED"
      ∧ ar5.session = some "sess-token" ∧ ar5.userIdForSrp = some "srv-uid")
    ∧ (login H1 exId "a_b" (.ok ir5) (.ok ar5) 0 "ts" 1 5 emptyWorld "u" "p"
          = .passwordChangeRequired "sess-token" "srv-uid"
      ∧ (∀ (t : AuthTokens) (w2 : World),
          login H1 exId "a_b" (.ok ir5) (.ok ar5) 0 "ts" 1 5 emptyWorld "u" "p"
            ≠ .success t w2)
      ∧ ∀ (m : String),
          login H1 exId "a_b" (.ok ir5) (.ok ar5) 0 "ts" 1 5 emptyWorld "u" "p"
            ≠ .authError m) :=
  ⟨⟨rfl, rfl, rfl, rfl, rfl, rfl, rfl, rfl, rfl⟩,
    login_new_password_required H1 exId "a_b" ir5 ar5 0 "ts" 1 5 emptyWorld
      "u" "p" "u" "ab" "5" "AA==" "AQ==" "sess-token" "srv-uid"
      rfl rfl rfl rfl rfl rfl rfl rfl rfl⟩

/-!
C4 — the `u == 0` protocol check.
-/

theorem ofOpt_some (msg : String) (a : α) : ofOpt msg (some a) = .ok a := rfl

theorem ofOpt_none (msg : String) : ofOpt msg (none : Option α) = .error msg := rfl

theorem except_bind_ok (a : α) (f : α → Except ε β) :
    (Except.ok a : Except ε α) >>= f = f a := rfl

theorem except_bind_error (e : ε) (f : α → Except ε β) :
    (Except.error e : Except ε α) >>= f = .error e := rfl

theorem except_throw_eq (e : String) : (throw e : Except String α) = .error e := rfl

theorem except_pure_bind (a : α) (f : α → Except ε β) :
    (pure a : Except ε α) >>= f = f a := rfl

/-- C4: whenever the SRP `u` value computed from the pair `(A, B)` is zero,
`_compute_claim` fails with exactly the protocol error
`"Invalid SRP u value"` — and `login` surfaces it as the authentication
failure `"Authentication failed: Invalid SRP u value"`, with no retry in
the control flow — while for every pair with `u ≠ 0` this error is never
raised, so no silently wrong proof is produced under a zero `u`. -/
theorem u_zero_hard_fail (H : Bytes → Bytes) (extract : String → String)
    (poolId username password salt srp_b secret_block timestamp : String)
    (small_a large_a B u : Nat)
    (hB : hexToNat? srp_b = some B)
    (hu : compute_u H large_a B = some u) :
    (u = 0 →
      compute_claim H poolId small_a large_a username password salt srp_b
          secret_block timestamp = .error "Invalid SRP u value"
      ∧ ∀ (ir : InitResp) (respondResult : Except ProviderErr RespondResp)
          (now : Int) (w : World) (loginName : String),
          ir.challengeName = some "PASSWORD_VERIFIER" →
          ir.userIdForSrp = some username → ir.salt = some salt →
          ir.srpB = some srp_b → ir.secretBlock = some secret_block →
          login H extract poolId (.ok ir) respondResult now timestamp small_a
              large_a w loginName password
            = .authError "Authentication failed: Invalid SRP u value")
    ∧ (u ≠ 0 →
      compute_claim H poolId small_a large_a username password salt srp_b
          secret_block timestamp ≠ .error "Invalid SRP u value") := by
  constructor
  · intro hu0
    subst hu0
    have hcc : compute_claim H poolId small_a large_a username password salt
        srp_b secret_block timestamp = .error "Invalid SRP u value" := by
      unfold compute_claim
      simp only [hB, hu, ofOpt_some, except_bind_ok, if_pos, except_throw_eq,
        except_bind_error]
    refine ⟨hcc, ?_⟩
    intro ir respondResult now w loginName hchal huid hsalt hsrpb hsec
    unfold login
    simp [hchal, huid, hsalt, hsrpb, hsec, hcc]
  · intro hu0
    unfold compute_claim
    simp only [hB, hu, ofOpt_some, except_bind_ok]
    rw [if_neg hu0]
    simp only [except_pure_bind]
    cases hp : (splitString '_' poolId).get? 1 with
    | none => simp only [hp, ofOpt_none, except_bind_error]; decide
    | some pool_name =>
      simp only [hp, ofOpt_some, except_bind_ok]
      cases hq : padHex salt with
      | none => simp only [hq, ofOpt_none, except_bind_error]; decide
      | some saltP =>
        simp only [hq, ofOpt_some, except_bind_ok]
        cases hr : hexBytes? saltP with
        | none => simp only [hr, ofOpt_none, except_bind_error]; decide
        | some saltBytes =>
          simp only [hr, ofOpt_some, except_bind_ok]
          cases hx : hexToNat? (bytesToHex (H (saltBytes ++
              H (utf8 (pool_name ++ username ++ ":" ++ password))))) with
          | none => simp only [hx, ofOpt_none, except_bind_error]; decide
          | some x =>
            simp only [hx, ofOpt_some, except_bind_ok]
            cases hk : hexToNat? (bytesToHex (H (nBytesC ++ gBytesC))) with
            | none => simp only [hk, ofOpt_none, except_bind_error]; decide
            | some k =>
              simp only [hk, ofOpt_some, except_bind_ok]
              cases hs : (padHex (natToHex
                  ((((B : Int) - (k : Int) *
                      ((g_const ^ x % n_const : Nat) : Int)) %
                      (n_const : Int)).toNat ^ (small_a + u * x) %
                    n_const))).bind hexBytes? with
              | none => simp only [hs, ofOpt_none, except_bind_error]; decide
              | some sB =>
                simp only [hs, ofOpt_some, except_bind_ok]
                cases ht : (padHex (natToHex u)).bind hexBytes? with
                | none => simp only [ht, ofOpt_none, except_bind_error]; decide
                | some uB =>
                  simp only [ht, ofOpt_some, except_bind_ok]
                  cases hv : b64Decode? secret_block with
                  | none => simp only [hv, ofOpt_none, except_bind_error]; decide
                  | some sbBytes =>
                    simp only [hv, ofOpt_some, except_bind_ok]
                    exact fun hx2 => Except.noConfusion hx2

/-- A stand-in hash returning a zero byte, which forces `u = 0`. -/
def H0 : Bytes → Bytes := fun _ => [0]

/-- Witness for `u_zero_hard_fail`: a concrete pair with `u = 0` makes the
claim computation fail with the protocol error, and `login` surfaces it as
an authentication failure. -/
theorem u_zero_hard_fail_witness :
    (hexToNat? "5" = some 5 ∧ compute_u H0 5 5 = some 0)
    ∧ (compute_claim H0 "a_b" 1 5 "u" "p" "ab" "5" "AA==" "ts"
          = .error "Invalid SRP u value"
      ∧ login H0 exId "a_b" (.ok ir5) (.ok ar5) 0 "ts" 1 5 emptyWorld
          "login" "p" = .authError "Authentication failed: Invalid SRP u value") :=
  ⟨⟨rfl, rfl⟩,
    ⟨((u_zero_hard_fail H0 exId "a_b" "u" "p" "ab" "5" "AA==" "ts" 1 5 5 0
        rfl rfl).1 rfl).1,
      ((u_zero_hard_fail H0 exId "a_b" "u" "p" "ab" "5" "AA==" "ts" 1 5 5 0
        rfl rfl).1 rfl).2 ir5 (.ok ar5) 0 emptyWorld "login"
        rfl rfl rfl rfl rfl⟩⟩

/-!
C1 — the proof computation matches the specified formula.
-/

/-- C1: under the hypotheses naming each intermediate value the way the
specification computes it — `u` from the hashed padded hex encodings of
`A` and `B`, `x` from the hashed salt and credential hash, `k` from the
hashed padded group constants, `S = (B - k * g^x mod N) ^ (a + u*x) mod N`,
`pool_name` the segment of the pool identifier after its first separator —
`_compute_claim` returns exactly the base64 encoding of
`HMAC_SHA256(key, pool_name_utf8 || username_utf8 || secret_block_bytes ||
timestamp_utf8)`, where `key` is the first 16 bytes of
`HMAC_SHA256(HMAC_SHA256(u_bytes, S_bytes), info_label || 0x01)`. -/
theorem compute_claim_spec (H : Bytes → Bytes)
    (poolId username password salt srp_b secret_block timestamp : String)
    (small_a large_a B u x k S : Nat) (pool_name saltP : String)
    (saltBytes sB uB sbBytes : Bytes)
    (hB : hexToNat? srp_b = some B)
    (hu : compute_u H large_a B = some u)
    (hu0 : ¬(u = 0))
    (hpool : (splitString '_' poolId).get? 1 = some pool_name)
    (hsaltP : padHex salt = some saltP)
    (hsaltB : hexBytes? saltP = some saltBytes)
    (hx : hexToNat? (bytesToHex (H (saltBytes ++
        H (utf8 (pool_name ++ username ++ ":" ++ password))))) = some x)
    (hk : hexToNat? (bytesToHex (H (nBytesC ++ gBytesC))) = some k)
    (hS : S = (((B : Int) - (k : Int) * ((g_const ^ x % n_const : Nat) : Int)) %
        (n_const : Int)).toNat ^ (small_a + u * x) % n_const)
    (hsB : (padHex (natToHex S)).bind hexBytes? = some sB)
    (huB : (padHex (natToHex u)).bind hexBytes? = some uB)
    (hsec : b64Decode? secret_block = some sbBytes) :
    compute_claim H poolId small_a large_a username password salt srp_b
        secret_block timestamp
      = .ok (b64Encode (hmacH H
          ((hmacH H (hmacH H uB sB) (utf8 "Caldera Derived Key" ++ [1])).take 16)
          (utf8 pool_name ++ utf8 username ++ sbBytes ++ utf8 timestamp))) := by
  subst hS
  unfold compute_claim
  simp only [hB, hu, ofOpt_some, except_bind_ok]
  rw [if_neg hu0]
  simp only [except_pure_bind, hpool, hsaltP, hsaltB, hx, hk, hsB, huB, hsec,
    ofOpt_some, except_bind_ok]
  rfl

/-- Witness for `compute_claim_spec` at a concrete exchange with the
stand-in hash `H1`: there `B = 5`, `u = x = k = 1`, `S = 9`. -/
theorem compute_claim_spec_witness :
    (hexToNat? "5" = some 5
      ∧ compute_u H1 5 5 = some 1
      ∧ ¬((1 : Nat) = 0)
      ∧ (splitString '_' "a_b").get? 1 = some "b"
      ∧ padHex "ab" = some "00ab"
      ∧ hexBytes? "00ab" = some [0, 171]
      ∧ hexToNat? (bytesToHex (H1 ([0, 171] ++
          H1 (utf8 ("b" ++ "u" ++ ":" ++ "p"))))) = some 1
      ∧ hexToNat? (bytesToHex (H1 (nBytesC ++ gBytesC))) = some 1
      ∧ (9 : Nat) = (((5 : Int) - (1 : Int) *
          ((g_const ^ 1 % n_const : Nat) : Int)) % (n_const : Int)).toNat ^
          (1 + 1 * 1) % n_const
      ∧ (padHex (natToHex 9)).bind hexBytes? = some [9]
      ∧ (padHex (natToHex 1)).bind hexBytes? = some [1]
      ∧ b64Decode? "AA==" = some [0])
    ∧ compute_claim H1 "a_b" 1 5 "u" "p" "ab" "5" "AA==" "ts"
        = .ok (b64Encode (hmacH H1
            ((hmacH H1 (hmacH H1 [1] [9])
              (utf8 "Caldera Derived Key" ++ [1])).take 16)
            (utf8 "b" ++ utf8 "u" ++ [0] ++ utf8 "ts"))) :=
  ⟨⟨rfl, rfl, by decide, rfl, rfl, rfl, rfl, rfl, by decide, rfl, rfl, rfl⟩,
    compute_claim_spec H1 "a_b" "u" "p" "ab" "5" "AA==" "ts" 1 5 5 1 1 1 9
      "b" "00ab" [0, 171] [9] [1] [0]
      rfl rfl (by decide) rfl rfl rfl rfl rfl (by decide) rfl rfl rfl⟩

/-!
C3 — `pad_hex` even length, nibble padding, and the sign byte.
-/

/-- The value of a valid hex digit, through `getD`, is at most 15. -/
theorem digit_getD_le {c : Char} (h : isHexDigit c = true) :
    (hexDigitVal? c).getD 0 ≤ 15 := by
  unfold isHexDigit at h
  obtain ⟨v, hv⟩ := Option.isSome_iff_exists.mp h
  rw [hv]
  exact hexDigitVal_le hv

/-- Parsing a two-digit hex string gives `16 * d1 + d2`. -/
theorem hexToNat_two {c1 c2 : Char} (h1 : isHexDigit c1 = true)
    (h2 : isHexDigit c2 = true) :
    hexToNat? ⟨[c1, c2]⟩ = some
      (16 * ((hexDigitVal? c1).getD 0) + (hexDigitVal? c2).getD 0) := by
  unfold hexToNat?
  simp [h1, h2]

/-- C3: for every nonempty hex string `s`, `pad_hex` succeeds and the
result `t` has even length; an odd-length input is left-padded with one
zero nibble; the result gains a leading `"00"` byte iff the first byte of
the byte string `s` denotes (an odd-length string carrying an implicit
leading zero nibble) is at least `0x80`; and the first byte of the result
is always below `0x80`, so it is never parsed as a negative big integer. -/
theorem pad_hex_spec (s : String) (h1 : ¬(s.data = []))
    (h2 : s.data.all isHexDigit = true) :
    ∃ t, padHex s = some t
      ∧ t.data.length % 2 = 0
      ∧ (s.data.length % 2 = 1 → t = "0" ++ s)
      ∧ (t = "00" ++ s ↔ 128 ≤ firstByteVal s)
      ∧ firstByteVal t < 128 := by
  obtain ⟨c1, l1, hs1⟩ : ∃ c l, s.data = c :: l := by
    cases hsd : s.data with
    | nil => exact absurd hsd h1
    | cons a l => exact ⟨a, l, rfl⟩
  have hc1 : isHexDigit c1 = true := by
    have := List.all_eq_true.mp h2 c1 (by rw [hs1]; exact List.mem_cons_self _ _)
    exact this
  by_cases hodd : s.data.length % 2 = 1
  · -- odd length: one zero nibble is prepended
    refine ⟨"0" ++ s, ?_, ?_, fun _ => rfl, ?_, ?_⟩
    · unfold padHex
      rw [if_pos hodd]
    · rw [string_data_append]
      have : ("0" : String).data = ['0'] := rfl
      rw [this]
      simp only [List.length_append, List.length_cons, List.length_nil]
      omega
    · constructor
      · intro heq
        rw [string_eq_iff, string_data_append, string_data_append] at heq
        have hd0 : ("0" : String).data = ['0'] := rfl
        have hd00 : ("00" : String).data = ['0', '0'] := rfl
        rw [hd0, hd00] at heq
        have hlen := congrArg List.length heq
        simp only [List.length_append, List.length_cons] at hlen
        omega
      · intro hge
        unfold firstByteVal at hge
        rw [if_pos hodd, hs1] at hge
        have hle : (hexDigitVal? ((c1 :: l1).headD '0')).getD 0 ≤ 15 := by
          simp only [List.headD_cons]
          exact digit_getD_le hc1
        omega
    · -- first byte of "0" ++ s is a single padded nibble
      unfold firstByteVal
      rw [string_data_append]
      have hd0 : ("0" : String).data = ['0'] := rfl
      rw [hd0, hs1]
      have hlen : (('0' :: (c1 :: l1)).length) % 2 = 0 := by
        rw [hs1] at hodd
        simp only [List.length_cons] at hodd ⊢
        omega
      rw [if_neg (by simp only [List.cons_append, List.nil_append]; omega)]
      simp only [List.cons_append, List.nil_append, List.take_succ_cons,
        List.take_zero]
      rw [hexToNat_two (by decide) hc1]
      have := digit_getD_le hc1
      have hz : (hexDigitVal? '0').getD 0 = 0 := rfl
      simp only [Option.getD_some]
      omega
  · -- even length
    obtain ⟨c2, rest, hs2⟩ : ∃ c l, l1 = c :: l := by
      cases hl : l1 with
      | nil =>
        rw [hl] at hs1
        rw [hs1] at hodd
        simp at hodd
      | cons a l => exact ⟨a, l, rfl⟩
    have hs : s.data = c1 :: c2 :: rest := by rw [hs1, hs2]
    have hc2 : isHexDigit c2 = true := by
      have := List.all_eq_true.mp h2 c2
        (by rw [hs]; exact List.mem_cons_of_mem _ (List.mem_cons_self _ _))
      exact this
    have htake : s.data.take 2 = [c1, c2] := by rw [hs]; rfl
    have hparse : hexToNat? ⟨s.data.take 2⟩ = some
        (16 * ((hexDigitVal? c1).getD 0) + (hexDigitVal? c2).getD 0) := by
      rw [htake]
      exact hexToNat_two hc1 hc2
    have hfb : firstByteVal s =
        16 * ((hexDigitVal? c1).getD 0) + (hexDigitVal? c2).getD 0 := by
      unfold firstByteVal
      rw [if_neg hodd, hparse]
      rfl
    have hrest : rest.length % 2 = 0 := by
      have hodd2 := hodd
      rw [hs] at hodd2
      simp only [List.length_cons] at hodd2
      omega
    by_cases hv : 128 ≤ 16 * ((hexDigitVal? c1).getD 0) + (hexDigitVal? c2).getD 0
    · -- high bit set: a full zero byte is prepended
      refine ⟨"00" ++ s, ?_, ?_, fun hc => absurd hc hodd, ?_, ?_⟩
      · unfold padHex
        rw [if_neg hodd]
        simp only [hparse]
        rw [if_pos hv]
      · rw [string_data_append]
        have h00 : ("00" : String).data = ['0', '0'] := rfl
        rw [h00, hs]
        simp only [List.length_append, List.length_cons, List.length_nil]
        omega
      · exact ⟨fun _ => hfb ▸ hv, fun _ => rfl⟩
      · unfold firstByteVal
        rw [string_data_append]
        have h00 : ("00" : String).data = ['0', '0'] := rfl
        rw [h00, hs]
        rw [if_neg (by
          simp only [List.cons_append, List.nil_append, List.length_cons]
          omega)]
        simp only [List.cons_append, List.take_succ_cons, List.take_zero]
        rw [hexToNat_two (by decide) (by decide)]
        have hz : (hexDigitVal? '0').getD 0 = 0 := rfl
        simp only [Option.getD_some]
        omega
    · -- high bit clear: unchanged
      refine ⟨s, ?_, ?_, fun hc => absurd hc hodd, ?_, ?_⟩
      · unfold padHex
        rw [if_neg hodd]
        simp only [hparse]
        rw [if_neg hv]
      · rw [hs]
        simp only [List.length_cons]
        omega
      · constructor
        · intro heq
          rw [string_eq_iff, string_data_append] at heq
          have hd00 : ("00" : String).data = ['0', '0'] := rfl
          rw [hd00] at heq
          have hlen := congrArg List.length heq
          simp only [List.length_append, List.length_cons] at hlen
          omega
        · intro hge
          rw [hfb] at hge
          exact absurd hge hv
      · rw [hfb]
        omega

/-- Witness for `pad_hex_spec` at the concrete string `"f000"` (first byte
`0xf0`, high bit set). -/
theorem pad_hex_spec_witness :
    (¬(("f000" : String).data = [])
      ∧ ("f000" : String).data.all isHexDigit = true)
    ∧ ∃ t, padHex "f000" = some t
        ∧ t.data.length % 2 = 0
        ∧ (("f000" : String).data.length % 2 = 1 → t = "0" ++ "f000")
        ∧ (t = "00" ++ "f000" ↔ 128 ≤ firstByteVal "f000")
        ∧ firstByteVal t < 128 :=
  ⟨⟨by decide, by decide⟩, pad_hex_spec "f000" (by decide) (by decide)⟩
